import Mathlib

/-!
Shallow embedding of `src/Constructora.py` (real-estate development
calculator).  Real-valued quantities of the Python source (floats) are
modelled as rationals `ℚ`, so every arithmetic identity is exact;
`math.floor` / `math.ceil` become `Int.floor` / `Int.ceil`; Python ints
are `ℤ`; dates are day numbers `ℤ`; strings stay `String` (the source
dispatches on string tags with `else` fallbacks, which is preserved).
-/

/-- Conversion-rate table `TASA_DE_CONVERSION` (source lines 11-15):
1 USD = 4000 COP, 1 EUR = 4300 COP. -/
def TASA_DE_CONVERSION : List (String × ℚ) :=
  [("COP", 1.0), ("USD", 1 / 4000.0), ("EUR", 1 / 4300.0)]

/-- Symbol table `SIMBOLO_MONEDA` (source lines 16-20). -/
def SIMBOLO_MONEDA : List (String × String) :=
  [("COP", "$"), ("USD", "$"), ("EUR", "€")]

/-- Python `dict.get(key, default)` over an association list. -/
def dictGet {α : Type} (l : List (String × α)) (k : String) (d : α) : α :=
  (l.lookup k).getD d

/-- Round a rational to the nearest integer, ties to even (the rounding
used by the fixed-point string formatting of Python). -/
def roundHalfEven (q : ℚ) : ℤ :=
  let f := ⌊q⌋
  let r := q - f
  if r < 1 / 2 then f
  else if r > 1 / 2 then f + 1
  else if f % 2 = 0 then f else f + 1

/-- Insert a comma after every three characters of a little-endian digit
list (the thousands grouping of the Python fixed-point format). -/
def groupRev : List Char → List Char
  | a :: b :: c :: d :: rest => a :: b :: c :: ',' :: groupRev (d :: rest)
  | l => l

/-- Decimal rendering of a natural number with thousands separators. -/
def natCommas (n : ℕ) : String :=
  String.mk ((groupRev (toString n).data.reverse).reverse)

/-- The Python fixed-point comma format: two fixed decimals, comma-grouped
integer part. -/
def formatComma2 (q : ℚ) : String :=
  let cents : ℤ := roundHalfEven (q * 100)
  let sign := if cents < 0 then "-" else ""
  let a := cents.natAbs
  let intPart := a / 100
  let fracPart := a % 100
  sign ++ natCommas intPart ++ "." ++
    (if fracPart < 10 then "0" ++ toString fracPart else toString fracPart)

/-- `formatear_valor` (source lines 25-34).  The process-wide global
`moneda_actual` is made an explicit parameter. -/
def formatear_valor (valor_cop : ℚ) (moneda_actual : String) : String :=
  let factor := dictGet TASA_DE_CONVERSION moneda_actual 1.0
  let convertido := valor_cop * factor
  let simbolo := dictGet SIMBOLO_MONEDA moneda_actual "$"
  simbolo ++ " " ++ formatComma2 convertido ++ " " ++ moneda_actual

/-- The `Proyecto` entity: raw inputs (set by `__init__` / `editar`)
followed by every derived attribute `_recalcular` assigns.  Attributes
that Python only creates for some project types (`area_bodegas`,
`aptos_por_torre`, `num_torres`) are present with a dummy initial value
and are simply left untouched by branches that do not assign them. -/
@[ext]
structure Proyecto where
  pid : String
  tipo : String
  fecha_inicio : ℤ
  direccion : String
  area_lote : ℚ
  precio_terreno_m2 : ℚ
  tamano : String
  estrato : ℤ
  habitaciones : ℤ
  fecha_estimada_final : ℤ
  zonas_sociales : List String
  porc_construccion : ℚ
  finalizado : Bool
  fecha_real_final : Option ℤ
  area_construida : ℚ
  area_no_construida : ℚ
  area_min_vivienda : ℚ
  num_viviendas : ℤ
  area_bodegas : ℚ
  aptos_por_torre : ℤ
  num_torres : ℤ
  costo_terreno_total : ℚ
  costo_construccion_m2 : ℚ
  costo_construccion_total : ℚ
  presupuesto_total : ℚ
  ganancia : ℚ
  precio_venta_m2 : ℚ
  precio_venta_total : ℚ
  valor_casa : ℚ

/-- The stratum-tiered construction cost per m² (midpoint table).  The
source repeats this identical `if/elif/else` chain verbatim three times
inside `_recalcular` (lines 118-126, 162-170, 207-214). -/
def costo_m2_estrato (estrato : ℤ) : ℚ :=
  if estrato = 3 then (1800000 + 2300000) / 2
  else if estrato = 4 then (2300000 + 2800000) / 2
  else if estrato = 5 then (2800000 + 3600000) / 2
  else (3600000 + 4500000) / 2

/-- `Proyecto._recalcular` (source lines 92-240), as a pure state
transformer: reads only raw-input fields, assigns every derived field. -/
def recalcular (p : Proyecto) : Proyecto :=
  let area_construida := p.area_lote * (p.porc_construccion / 100.0)
  let area_no_construida := p.area_lote - area_construida
  let p1 : Proyecto :=
    if p.tipo = "casas" then
      let area_min_vivienda : ℚ :=
        if p.tamano = "grande" then (p.habitaciones : ℚ) * 30.0 + 40.0
        else if p.tamano = "mediana" then (p.habitaciones : ℚ) * 25.0 + 35.0
        else 60.0
      let costo_terreno := p.area_lote * p.precio_terreno_m2
      let costo_m2 := costo_m2_estrato p.estrato
      let costo_construccion := area_construida * costo_m2
      let presupuesto_sin_ganancia := costo_terreno + costo_construccion
      let precio_base_m2 :=
        if area_construida > 0 then
          (1.20 * presupuesto_sin_ganancia) / area_construida
        else (0.0 : ℚ)
      let beta_casas : ℚ := 50000.0
      let n_opt : ℤ := max 1 ⌊precio_base_m2 / (2.0 * beta_casas)⌋
      let capacidad_area : ℤ := ⌊area_construida / area_min_vivienda⌋
      let n_opt : ℤ := if n_opt > capacidad_area then capacidad_area else n_opt
      { p with
        area_construida := area_construida
        area_no_construida := area_no_construida
        area_min_vivienda := area_min_vivienda
        num_viviendas := n_opt }
    else if p.tipo = "edificio" then
      let area_min_vivienda : ℚ := (p.habitaciones : ℚ) * 20.0 + 30.0
      let costo_terreno := p.area_lote * p.precio_terreno_m2
      let costo_m2 := costo_m2_estrato p.estrato
      let costo_construccion := area_construida * costo_m2
      let presupuesto_sin_ganancia := costo_terreno + costo_construccion
      let precio_base_m2 :=
        if area_construida > 0 then
          (1.20 * presupuesto_sin_ganancia) / area_construida
        else (0.0 : ℚ)
      let beta_edificio : ℚ := 80000.0
      let n_opt : ℤ := max 1 ⌊precio_base_m2 / (2.0 * beta_edificio)⌋
      let capacidad_area : ℤ := ⌊area_construida / area_min_vivienda⌋
      let n_opt : ℤ := if n_opt > capacidad_area then capacidad_area else n_opt
      let aptos_por_torre : ℤ := 10
      let num_torres : ℤ := ⌈(n_opt : ℚ) / (aptos_por_torre : ℚ)⌉
      { p with
        area_construida := area_construida
        area_no_construida := area_no_construida
        area_min_vivienda := area_min_vivienda
        num_viviendas := n_opt
        aptos_por_torre := min aptos_por_torre n_opt
        num_torres := num_torres }
    else
      let area_bodegas := p.area_lote * 0.70
      let area_min_vivienda : ℚ := 100.0
      { p with
        area_construida := area_construida
        area_no_construida := area_no_construida
        area_bodegas := area_bodegas
        area_min_vivienda := area_min_vivienda
        num_viviendas := max 1 ⌊area_bodegas / area_min_vivienda⌋ }
  let costo_terreno_total := p.area_lote * p.precio_terreno_m2
  let costo_construccion_m2 := costo_m2_estrato p.estrato
  let costo_construccion_total := area_construida * costo_construccion_m2
  let presupuesto_total := costo_terreno_total + costo_construccion_total
  let ganancia := presupuesto_total * 0.20
  let precio_venta_m2 :=
    if area_construida > 0 then
      (1.20 * presupuesto_total) / area_construida
    else (0.0 : ℚ)
  let precio_venta_total := area_construida * precio_venta_m2
  let valor_casa :=
    if p1.num_viviendas > 0 then
      precio_venta_total / (p1.num_viviendas : ℚ)
    else (0.0 : ℚ)
  { p1 with
    costo_terreno_total := costo_terreno_total
    costo_construccion_m2 := costo_construccion_m2
    costo_construccion_total := costo_construccion_total
    presupuesto_total := presupuesto_total
    ganancia := ganancia
    precio_venta_m2 := precio_venta_m2
    precio_venta_total := precio_venta_total
    valor_casa := valor_casa }

/-- `Proyecto.__init__` (source lines 41-90): stores the raw inputs,
derives `zonas_sociales` from the stratum and `porc_construccion` from
the size class, marks the project unfinalized, then runs
`_recalcular`. -/
def mkProyecto (pid tipo : String) (fecha_inicio : ℤ) (direccion : String)
    (area_lote precio_terreno_m2 : ℚ) (tamano : String)
    (estrato habitaciones : ℤ) (fecha_estimada_final : ℤ) : Proyecto :=
  let zonas_sociales :=
    if estrato ≥ 5 then ["Piscina", "Sauna", "Gimnasio"]
    else if estrato = 4 then ["Piscina", "Salon comun"]
    else if estrato = 3 then ["Parque infantil", "Salon comun"]
    else ["Zonas verdes", "Parque infantil"]
  let porc_construccion : ℚ :=
    if tamano = "grande" then 80.0
    else if tamano = "mediana" then 60.0
    else 45.0
  recalcular
    { pid := pid
      tipo := tipo
      fecha_inicio := fecha_inicio
      direccion := direccion
      area_lote := area_lote
      precio_terreno_m2 := precio_terreno_m2
      tamano := tamano
      estrato := estrato
      habitaciones := habitaciones
      fecha_estimada_final := fecha_estimada_final
      zonas_sociales := zonas_sociales
      porc_construccion := porc_construccion
      finalizado := false
      fecha_real_final := none
      area_construida := 0
      area_no_construida := 0
      area_min_vivienda := 0
      num_viviendas := 0
      area_bodegas := 0
      aptos_por_torre := 0
      num_torres := 0
      costo_terreno_total := 0
      costo_construccion_m2 := 0
      costo_construccion_total := 0
      presupuesto_total := 0
      ganancia := 0
      precio_venta_m2 := 0
      precio_venta_total := 0
      valor_casa := 0 }

/-- The step-5 intermediate `precio_base_m2` of `_recalcular` (source
lines 115-135): base sale price per m² before the saturation penalty,
computed from the land cost and the stratum-tiered construction cost. -/
def precio_base_m2 (p : Proyecto) : ℚ :=
  let area_construida := p.area_lote * (p.porc_construccion / 100.0)
  let costo_terreno := p.area_lote * p.precio_terreno_m2
  let costo_m2 := costo_m2_estrato p.estrato
  let costo_construccion := area_construida * costo_m2
  let presupuesto_sin_ganancia := costo_terreno + costo_construccion
  if area_construida > 0 then
    (1.20 * presupuesto_sin_ganancia) / area_construida
  else (0.0 : ℚ)

/-! Characterization lemmas: closed forms for the fields `recalcular`
assigns, per project-type branch. -/

/-- The built area is `lot_area * construction_percent / 100` for every
project type. -/
lemma recalcular_area_construida (p : Proyecto) :
    (recalcular p).area_construida = p.area_lote * (p.porc_construccion / 100.0) := by
  by_cases h1 : p.tipo = "casas"
  · simp only [recalcular, h1, if_pos]
  · by_cases h2 : p.tipo = "edificio"
    · simp only [recalcular, h1, h2, if_neg, if_pos, String.reduceEq, reduceIte]
    · simp only [recalcular, if_neg h1, if_neg h2]

/-- The unbuilt area is the lot remainder for every project type. -/
lemma recalcular_area_no_construida (p : Proyecto) :
    (recalcular p).area_no_construida
      = p.area_lote - p.area_lote * (p.porc_construccion / 100.0) := by
  by_cases h1 : p.tipo = "casas"
  · simp only [recalcular, h1, if_pos]
  · by_cases h2 : p.tipo = "edificio"
    · simp only [recalcular, h1, h2, if_neg, if_pos, String.reduceEq, reduceIte]
    · simp only [recalcular, if_neg h1, if_neg h2]

/-- Minimum unit area of a house project, by size class. -/
lemma recalcular_area_min_casas (p : Proyecto) (h : p.tipo = "casas") :
    (recalcular p).area_min_vivienda =
      if p.tamano = "grande" then (p.habitaciones : ℚ) * 30.0 + 40.0
      else if p.tamano = "mediana" then (p.habitaciones : ℚ) * 25.0 + 35.0
      else 60.0 := by
  simp only [recalcular, h, if_pos]

/-- Minimum unit area of a building project. -/
lemma recalcular_area_min_edificio (p : Proyecto) (h : p.tipo = "edificio") :
    (recalcular p).area_min_vivienda = (p.habitaciones : ℚ) * 20.0 + 30.0 := by
  simp only [recalcular, h, String.reduceEq, reduceIte]

/-- Unit count of a house project: the revenue-optimal count (floored at
one) capped by the area capacity. -/
lemma recalcular_num_viviendas_casas (p : Proyecto) (h : p.tipo = "casas") :
    (recalcular p).num_viviendas =
      if max 1 ⌊precio_base_m2 p / (2.0 * 50000.0)⌋ >
          ⌊(recalcular p).area_construida / (recalcular p).area_min_vivienda⌋
      then ⌊(recalcular p).area_construida / (recalcular p).area_min_vivienda⌋
      else max 1 ⌊precio_base_m2 p / (2.0 * 50000.0)⌋ := by
  simp only [recalcular, precio_base_m2, h, if_pos]

/-- Unit count of a building project: the revenue-optimal count (floored
at one) capped by the area capacity. -/
lemma recalcular_num_viviendas_edificio (p : Proyecto) (h : p.tipo = "edificio") :
    (recalcular p).num_viviendas =
      if max 1 ⌊precio_base_m2 p / (2.0 * 80000.0)⌋ >
          ⌊(recalcular p).area_construida / (recalcular p).area_min_vivienda⌋
      then ⌊(recalcular p).area_construida / (recalcular p).area_min_vivienda⌋
      else max 1 ⌊precio_base_m2 p / (2.0 * 80000.0)⌋ := by
  simp only [recalcular, precio_base_m2, h, String.reduceEq, reduceIte]

/-- Unit count of an "otro" (warehouse) project. -/
lemma recalcular_num_viviendas_otro (p : Proyecto)
    (h1 : p.tipo ≠ "casas") (h2 : p.tipo ≠ "edificio") :
    (recalcular p).num_viviendas = max 1 ⌊p.area_lote * 0.70 / 100.0⌋ := by
  simp only [recalcular, if_neg h1, if_neg h2]

/-- The financial rollup fields, as assigned by steps 3-10 of
`_recalcular` (these do not depend on the project-type branch). -/
lemma recalcular_rollup (p : Proyecto) :
    (recalcular p).costo_terreno_total = p.area_lote * p.precio_terreno_m2 ∧
    (recalcular p).costo_construccion_m2 = costo_m2_estrato p.estrato ∧
    (recalcular p).costo_construccion_total
      = p.area_lote * (p.porc_construccion / 100.0) * costo_m2_estrato p.estrato ∧
    (recalcular p).presupuesto_total
      = p.area_lote * p.precio_terreno_m2
        + p.area_lote * (p.porc_construccion / 100.0) * costo_m2_estrato p.estrato ∧
    (recalcular p).ganancia = (recalcular p).presupuesto_total * 0.20 := by
  exact ⟨rfl, rfl, rfl, rfl, rfl⟩

/-- The per-unit value, written in terms of the recomputed unit count
and total sale price. -/
lemma recalcular_valor_casa (p : Proyecto) :
    (recalcular p).valor_casa =
      if (recalcular p).num_viviendas > 0 then
        (recalcular p).precio_venta_total / ((recalcular p).num_viviendas : ℚ)
      else (0.0 : ℚ) := rfl

/-- Shared fact: for house/building projects the recomputed unit count
is at least 1 when the built area reaches the minimum unit area. -/
lemma aux_unidades_al_menos_una (p : Proyecto)
    (ht : p.tipo = "casas" ∨ p.tipo = "edificio")
    (hm : 0 < (recalcular p).area_min_vivienda)
    (hba : (recalcular p).area_min_vivienda ≤ (recalcular p).area_construida) :
    1 ≤ (recalcular p).num_viviendas := by
  have hcap : (1 : ℤ)
      ≤ ⌊(recalcular p).area_construida / (recalcular p).area_min_vivienda⌋ := by
    rw [Int.le_floor]
    push_cast
    exact (one_le_div hm).mpr hba
  rcases ht with h | h
  · rw [recalcular_num_viviendas_casas p h]
    split_ifs with hh
    · exact hcap
    · exact le_max_left _ _
  · rw [recalcular_num_viviendas_edificio p h]
    split_ifs with hh
    · exact hcap
    · exact le_max_left _ _

/-- Shared fact: for house/building projects the recomputed unit count
never exceeds the area capacity. -/
lemma aux_unidades_le_capacidad (p : Proyecto)
    (ht : p.tipo = "casas" ∨ p.tipo = "edificio") :
    (recalcular p).num_viviendas
      ≤ ⌊(recalcular p).area_construida / (recalcular p).area_min_vivienda⌋ := by
  rcases ht with h | h
  · rw [recalcular_num_viviendas_casas p h]
    split_ifs with hh
    · exact le_refl _
    · exact le_of_not_lt hh
  · rw [recalcular_num_viviendas_edificio p h]
    split_ifs with hh
    · exact le_refl _
    · exact le_of_not_lt hh

/-- Shared fact: for house/building projects a built area below the
minimum unit area forces a unit count of zero (capacity caps below the
minimum-1 floor). -/
lemma aux_capacidad_cero (p : Proyecto)
    (ht : p.tipo = "casas" ∨ p.tipo = "edificio")
    (hm : 0 < (recalcular p).area_min_vivienda)
    (ha : 0 ≤ (recalcular p).area_construida)
    (hlt : (recalcular p).area_construida < (recalcular p).area_min_vivienda) :
    (recalcular p).num_viviendas = 0 := by
  have hcap : ⌊(recalcular p).area_construida / (recalcular p).area_min_vivienda⌋ = 0 := by
    rw [Int.floor_eq_zero_iff]
    constructor
    · exact div_nonneg ha (le_of_lt hm)
    · exact (div_lt_one hm).mpr hlt
  have hpos : ∀ x : ℤ, (0 : ℤ) < max 1 x :=
    fun x => lt_of_lt_of_le zero_lt_one (le_max_left 1 x)
  rcases ht with h | h
  · rw [recalcular_num_viviendas_casas p h, hcap, if_pos (hpos _)]
  · rw [recalcular_num_viviendas_edificio p h, hcap, if_pos (hpos _)]

/-- C1 counterexample: a large house project on a 100 m² lot has
built_area = 80 > 0 yet capacity floor(80/130) = 0, so the recomputed
unit count is 0, refuting the unconditional §3 invariant. -/
theorem casas_area_positiva_sin_unidades :
    (mkProyecto "CX" "casas" 0 "calle 1" 100 500000 "grande" 4 3 10).tipo = "casas" ∧
    0 < (mkProyecto "CX" "casas" 0 "calle 1" 100 500000 "grande" 4 3 10).area_construida ∧
    ¬(1 ≤ (mkProyecto "CX" "casas" 0 "calle 1" 100 500000 "grande" 4 3 10).num_viviendas) := by
  refine ⟨rfl, ?_, ?_⟩ <;>
    · simp only [mkProyecto, recalcular, costo_m2_estrato, String.reduceEq, reduceIte]
      norm_num

/-- C1 (amended): for every House or Building project whose recomputed
built_area is at least the (positive) min_unit_area, the recomputed
unit_count is at least 1; when 0 < built_area < min_unit_area the code
instead yields unit_count = 0. -/
theorem recalcular_unidades_al_menos_una (p : Proyecto)
    (ht : p.tipo = "casas" ∨ p.tipo = "edificio")
    (hm : 0 < (recalcular p).area_min_vivienda)
    (hba : (recalcular p).area_min_vivienda ≤ (recalcular p).area_construida) :
    1 ≤ (recalcular p).num_viviendas :=
  aux_unidades_al_menos_una p ht hm hba

/-- C1 witness: the amended theorem applied to the Scenario A house
project (built_area 800 ≥ min_unit_area 130). -/
theorem recalcular_unidades_al_menos_una_obs :
    ((mkProyecto "W1" "casas" 0 "calle" 1000 500000 "grande" 4 3 10).tipo = "casas" ∨
      (mkProyecto "W1" "casas" 0 "calle" 1000 500000 "grande" 4 3 10).tipo = "edificio") ∧
    0 < (recalcular (mkProyecto "W1" "casas" 0 "calle" 1000 500000 "grande" 4 3 10)).area_min_vivienda ∧
    (recalcular (mkProyecto "W1" "casas" 0 "calle" 1000 500000 "grande" 4 3 10)).area_min_vivienda
      ≤ (recalcular (mkProyecto "W1" "casas" 0 "calle" 1000 500000 "grande" 4 3 10)).area_construida ∧
    1 ≤ (recalcular (mkProyecto "W1" "casas" 0 "calle" 1000 500000 "grande" 4 3 10)).num_viviendas := by
  have h1 : (mkProyecto "W1" "casas" 0 "calle" 1000 500000 "grande" 4 3 10).tipo = "casas" := rfl
  have h2 : 0 < (recalcular (mkProyecto "W1" "casas" 0 "calle" 1000 500000 "grande" 4 3 10)).area_min_vivienda := by
    simp only [mkProyecto, recalcular, costo_m2_estrato, String.reduceEq, reduceIte]
    norm_num
  have h3 : (recalcular (mkProyecto "W1" "casas" 0 "calle" 1000 500000 "grande" 4 3 10)).area_min_vivienda
      ≤ (recalcular (mkProyecto "W1" "casas" 0 "calle" 1000 500000 "grande" 4 3 10)).area_construida := by
    simp only [mkProyecto, recalcular, costo_m2_estrato, String.reduceEq, reduceIte]
    norm_num
  exact ⟨Or.inl h1, h2, h3,
    recalcular_unidades_al_menos_una _ (Or.inl h1) h2 h3⟩

/-- C2 counterexample: an "otro" (warehouse) project with a small size
class: unit_count = max(1, floor(0.70·500/100)) = 3 exceeds the
capacity floor(built_area/min_unit_area) = floor(225/100) = 2. -/
theorem otro_excede_capacidad :
    ¬((mkProyecto "OX" "otro" 0 "calle 2" 500 1000 "chica" 4 3 10).num_viviendas
        ≤ ⌊(mkProyecto "OX" "otro" 0 "calle 2" 500 1000 "chica" 4 3 10).area_construida
            / (mkProyecto "OX" "otro" 0 "calle 2" 500 1000 "chica" 4 3 10).area_min_vivienda⌋) := by
  simp only [mkProyecto, recalcular, costo_m2_estrato, String.reduceEq, reduceIte]
  norm_num

/-- C2 (amended): for every House or Building project the recomputed
unit_count is at most floor(built_area / min_unit_area); for Other
projects the count is derived from the fixed 70% warehouse area and can
exceed that capacity. -/
theorem recalcular_unidades_le_capacidad (p : Proyecto)
    (ht : p.tipo = "casas" ∨ p.tipo = "edificio") :
    (recalcular p).num_viviendas
      ≤ ⌊(recalcular p).area_construida / (recalcular p).area_min_vivienda⌋ :=
  aux_unidades_le_capacidad p ht

/-- C2 witness: the amended theorem applied to the Scenario A house
project (unit count 6 ≤ capacity 6). -/
theorem recalcular_unidades_le_capacidad_obs :
    ((mkProyecto "W2" "casas" 0 "calle" 1000 500000 "grande" 4 3 10).tipo = "casas" ∨
      (mkProyecto "W2" "casas" 0 "calle" 1000 500000 "grande" 4 3 10).tipo = "edificio") ∧
    (recalcular (mkProyecto "W2" "casas" 0 "calle" 1000 500000 "grande" 4 3 10)).num_viviendas
      ≤ ⌊(recalcular (mkProyecto "W2" "casas" 0 "calle" 1000 500000 "grande" 4 3 10)).area_construida
          / (recalcular (mkProyecto "W2" "casas" 0 "calle" 1000 500000 "grande" 4 3 10)).area_min_vivienda⌋ := by
  have h1 : (mkProyecto "W2" "casas" 0 "calle" 1000 500000 "grande" 4 3 10).tipo = "casas" := rfl
  exact ⟨Or.inl h1, recalcular_unidades_le_capacidad _ (Or.inl h1)⟩

/-- C3: for every House or Building project (validated inputs: at least
one room, nonnegative lot area and construction percent), after
recomputation: built_area ≥ min_unit_area forces unit_count ≥ 1, and
built_area < min_unit_area forces unit_count = 0 and unit_value = 0
with no division error. -/
theorem recalcular_piso_uno_y_capacidad_cero (p : Proyecto)
    (ht : p.tipo = "casas" ∨ p.tipo = "edificio")
    (hhab : 1 ≤ p.habitaciones)
    (hlot : 0 ≤ p.area_lote)
    (hporc : 0 ≤ p.porc_construccion) :
    ((recalcular p).area_min_vivienda ≤ (recalcular p).area_construida →
        1 ≤ (recalcular p).num_viviendas) ∧
    ((recalcular p).area_construida < (recalcular p).area_min_vivienda →
        (recalcular p).num_viviendas = 0 ∧ (recalcular p).valor_casa = 0) := by
  have hq : (1 : ℚ) ≤ (p.habitaciones : ℚ) := by exact_mod_cast hhab
  have hm : 0 < (recalcular p).area_min_vivienda := by
    rcases ht with h | h
    · rw [recalcular_area_min_casas p h]
      split_ifs <;> nlinarith
    · rw [recalcular_area_min_edificio p h]
      nlinarith
  have ha : 0 ≤ (recalcular p).area_construida := by
    rw [recalcular_area_construida]
    exact mul_nonneg hlot (div_nonneg hporc (by norm_num))
  constructor
  · intro hba
    exact aux_unidades_al_menos_una p ht hm hba
  · intro hlt
    have hn : (recalcular p).num_viviendas = 0 := aux_capacidad_cero p ht hm ha hlt
    refine ⟨hn, ?_⟩
    rw [recalcular_valor_casa, hn]
    norm_num

/-- C3 witness: a house project whose lot is too small
(built_area = 80 < min_unit_area = 130), so the zero-capacity branch of
the theorem applies. -/
theorem recalcular_piso_uno_y_capacidad_cero_obs :
    ((mkProyecto "W3" "casas" 0 "calle" 100 500000 "grande" 4 3 10).tipo = "casas" ∨
      (mkProyecto "W3" "casas" 0 "calle" 100 500000 "grande" 4 3 10).tipo = "edificio") ∧
    1 ≤ (mkProyecto "W3" "casas" 0 "calle" 100 500000 "grande" 4 3 10).habitaciones ∧
    0 ≤ (mkProyecto "W3" "casas" 0 "calle" 100 500000 "grande" 4 3 10).area_lote ∧
    0 ≤ (mkProyecto "W3" "casas" 0 "calle" 100 500000 "grande" 4 3 10).porc_construccion ∧
    (((recalcular (mkProyecto "W3" "casas" 0 "calle" 100 500000 "grande" 4 3 10)).area_min_vivienda
          ≤ (recalcular (mkProyecto "W3" "casas" 0 "calle" 100 500000 "grande" 4 3 10)).area_construida →
        1 ≤ (recalcular (mkProyecto "W3" "casas" 0 "calle" 100 500000 "grande" 4 3 10)).num_viviendas) ∧
      ((recalcular (mkProyecto "W3" "casas" 0 "calle" 100 500000 "grande" 4 3 10)).area_construida
          < (recalcular (mkProyecto "W3" "casas" 0 "calle" 100 500000 "grande" 4 3 10)).area_min_vivienda →
        (recalcular (mkProyecto "W3" "casas" 0 "calle" 100 500000 "grande" 4 3 10)).num_viviendas = 0 ∧
        (recalcular (mkProyecto "W3" "casas" 0 "calle" 100 500000 "grande" 4 3 10)).valor_casa = 0)) := by
  have h1 : (mkProyecto "W3" "casas" 0 "calle" 100 500000 "grande" 4 3 10).tipo = "casas" := rfl
  have h2 : 1 ≤ (mkProyecto "W3" "casas" 0 "calle" 100 500000 "grande" 4 3 10).habitaciones := by
    norm_num [mkProyecto, recalcular]
  have h3 : 0 ≤ (mkProyecto "W3" "casas" 0 "calle" 100 500000 "grande" 4 3 10).area_lote := by
    norm_num [mkProyecto, recalcular]
  have h4 : 0 ≤ (mkProyecto "W3" "casas" 0 "calle" 100 500000 "grande" 4 3 10).porc_construccion := by
    simp only [mkProyecto, recalcular, String.reduceEq, reduceIte]
    norm_num
  exact ⟨Or.inl h1, h2, h3, h4,
    recalcular_piso_uno_y_capacidad_cero _ (Or.inl h1) h2 h3 h4⟩

/-- C4: Scenario A — a large stratum-4 house project on a 1000 m² lot
at 500000 per m² with 3 rooms yields built_area 800, min_unit_area 130,
construction cost 2550000 per m² and 2040000000 total, land cost
500000000, budget 2540000000, base price 3810000 per m², optimal count
38 capped by capacity 6, so unit_count = min(38, 6) = 6. -/
theorem escenario_casa_grande :
    (mkProyecto "A1" "casas" 0 "calle" 1000 500000 "grande" 4 3 10).area_construida = 800 ∧
    (mkProyecto "A1" "casas" 0 "calle" 1000 500000 "grande" 4 3 10).area_min_vivienda = 130 ∧
    (mkProyecto "A1" "casas" 0 "calle" 1000 500000 "grande" 4 3 10).costo_construccion_m2 = 2550000 ∧
    (mkProyecto "A1" "casas" 0 "calle" 1000 500000 "grande" 4 3 10).costo_construccion_total = 2040000000 ∧
    (mkProyecto "A1" "casas" 0 "calle" 1000 500000 "grande" 4 3 10).costo_terreno_total = 500000000 ∧
    (mkProyecto "A1" "casas" 0 "calle" 1000 500000 "grande" 4 3 10).presupuesto_total = 2540000000 ∧
    precio_base_m2 (mkProyecto "A1" "casas" 0 "calle" 1000 500000 "grande" 4 3 10) = 3810000 ∧
    ⌊precio_base_m2 (mkProyecto "A1" "casas" 0 "calle" 1000 500000 "grande" 4 3 10)
        / (2.0 * 50000.0)⌋ = 38 ∧
    ⌊(mkProyecto "A1" "casas" 0 "calle" 1000 500000 "grande" 4 3 10).area_construida
        / (mkProyecto "A1" "casas" 0 "calle" 1000 500000 "grande" 4 3 10).area_min_vivienda⌋ = 6 ∧
    (mkProyecto "A1" "casas" 0 "calle" 1000 500000 "grande" 4 3 10).num_viviendas = min 38 6 := by
  refine ⟨?_, ?_, ?_, ?_, ?_, ?_, ?_, ?_, ?_, ?_⟩ <;>
    · simp only [mkProyecto, recalcular, precio_base_m2, costo_m2_estrato,
        String.reduceEq, reduceIte]
      norm_num

/-- C5: for every project, the recomputed budget is exactly land cost
plus construction cost, and the profit is exactly 20% of the budget. -/
theorem presupuesto_total_y_ganancia (p : Proyecto) :
    (recalcular p).presupuesto_total
      = (recalcular p).costo_terreno_total + (recalcular p).costo_construccion_total ∧
    (recalcular p).ganancia = 0.20 * (recalcular p).presupuesto_total := by
  refine ⟨rfl, ?_⟩
  rw [(recalcular_rollup p).2.2.2.2]
  exact mul_comm _ _

/-- C6: for every project, the recomputed built and unbuilt areas
partition the lot exactly: built_area = lot_area * percent/100,
unbuilt_area = lot_area - built_area, and their sum is lot_area. -/
theorem areas_particionan_lote (p : Proyecto) :
    (recalcular p).area_construida + (recalcular p).area_no_construida = p.area_lote ∧
    (recalcular p).area_construida = p.area_lote * (p.porc_construccion / 100.0) ∧
    (recalcular p).area_no_construida = p.area_lote - (recalcular p).area_construida := by
  rw [recalcular_area_construida, recalcular_area_no_construida]
  exact ⟨by ring, rfl, rfl⟩

/-- C7: recomputation is idempotent — a second run on unchanged raw
inputs reproduces exactly the same project state. -/
theorem recalcular_idempotente (p : Proyecto) :
    recalcular (recalcular p) = recalcular p := by
  by_cases h1 : p.tipo = "casas"
  · simp only [recalcular, h1, if_pos]
  · by_cases h2 : p.tipo = "edificio"
    · simp only [recalcular, h2, String.reduceEq, reduceIte, if_pos, if_neg,
        ite_true, ite_false]
    · simp only [recalcular, if_neg h1, if_neg h2]

/-- C8: the currency formatter is a pure function of amount and code:
it renders amount·rate with the matching symbol, two decimals and comma
grouping, followed by the code; an unknown code uses rate 1.0 and
symbol "$"; 10000 with code USD (rate 1/4000) gives "$ 2.50 USD". -/
theorem formatear_valor_puro :
    (∀ v : ℚ, formatear_valor v "USD"
        = "$" ++ " " ++ formatComma2 (v * (1 / 4000.0)) ++ " " ++ "USD") ∧
    formatear_valor 10000 "USD" = "$ 2.50 USD" ∧
    (∀ v : ℚ, formatear_valor v "XYZ"
        = "$" ++ " " ++ formatComma2 (v * 1.0) ++ " " ++ "XYZ") ∧
    formatear_valor 10000 "XYZ" = "$ 10,000.00 XYZ" := by
  refine ⟨fun v => rfl, ?_, fun v => rfl, ?_⟩
  · have hl : dictGet TASA_DE_CONVERSION "USD" 1.0 = 1 / 4000.0 := rfl
    have hs : dictGet SIMBOLO_MONEDA "USD" "$" = "$" := rfl
    have hc : roundHalfEven ((10000 : ℚ) * (1 / 4000.0) * 100) = 250 := by
      unfold roundHalfEven
      norm_num
    simp only [formatear_valor, formatComma2, hl, hs, hc]
    rfl
  · have hl : dictGet TASA_DE_CONVERSION "XYZ" 1.0 = 1.0 := rfl
    have hs : dictGet SIMBOLO_MONEDA "XYZ" "$" = "$" := rfl
    have hc : roundHalfEven ((10000 : ℚ) * 1.0 * 100) = 1000000 := by
      unfold roundHalfEven
      norm_num
    simp only [formatear_valor, formatComma2, hl, hs, hc]
    rfl

/-- C9: recomputation is frame-safe — every raw-input field and the
finalization state are unchanged; only derived fields are assigned. -/
theorem recalcular_preserva_entradas (p : Proyecto) :
    (recalcular p).pid = p.pid ∧
    (recalcular p).tipo = p.tipo ∧
    (recalcular p).fecha_inicio = p.fecha_inicio ∧
    (recalcular p).fecha_estimada_final = p.fecha_estimada_final ∧
    (recalcular p).direccion = p.direccion ∧
    (recalcular p).area_lote = p.area_lote ∧
    (recalcular p).precio_terreno_m2 = p.precio_terreno_m2 ∧
    (recalcular p).tamano = p.tamano ∧
    (recalcular p).estrato = p.estrato ∧
    (recalcular p).habitaciones = p.habitaciones ∧
    (recalcular p).porc_construccion = p.porc_construccion ∧
    (recalcular p).finalizado = p.finalizado ∧
    (recalcular p).fecha_real_final = p.fecha_real_final := by
  refine ⟨?_, ?_, ?_, ?_, ?_, ?_, ?_, ?_, ?_, ?_, ?_, ?_, ?_⟩ <;>
    · by_cases h1 : p.tipo = "casas"
      · simp only [recalcular, h1, if_pos]
      · by_cases h2 : p.tipo = "edificio"
        · simp only [recalcular, h2, String.reduceEq, reduceIte, if_pos, if_neg,
            ite_true, ite_false]
        · simp only [recalcular, if_neg h1, if_neg h2]

/-- C10: for House or Building projects with positive built area, the
step-5 intermediate base price per m² equals the final sale price per
m² of the step-8 rollup — the duplicated computation always agrees. -/
theorem precio_base_coincide_con_precio_venta (p : Proyecto)
    (ht : p.tipo = "casas" ∨ p.tipo = "edificio")
    (ha : 0 < (recalcular p).area_construida) :
    precio_base_m2 p = (recalcular p).precio_venta_m2 := rfl

/-- C10 witness: the theorem applied to the Scenario A house project,
where both computations give 3810000 per m². -/
theorem precio_base_coincide_con_precio_venta_obs :
    ((mkProyecto "W4" "casas" 0 "calle" 1000 500000 "grande" 4 3 10).tipo = "casas" ∨
      (mkProyecto "W4" "casas" 0 "calle" 1000 500000 "grande" 4 3 10).tipo = "edificio") ∧
    0 < (recalcular (mkProyecto "W4" "casas" 0 "calle" 1000 500000 "grande" 4 3 10)).area_construida ∧
    precio_base_m2 (mkProyecto "W4" "casas" 0 "calle" 1000 500000 "grande" 4 3 10)
      = (recalcular (mkProyecto "W4" "casas" 0 "calle" 1000 500000 "grande" 4 3 10)).precio_venta_m2 := by
  have h1 : (mkProyecto "W4" "casas" 0 "calle" 1000 500000 "grande" 4 3 10).tipo = "casas" := rfl
  have h2 : 0 < (recalcular (mkProyecto "W4" "casas" 0 "calle" 1000 500000 "grande" 4 3 10)).area_construida := by
    simp only [mkProyecto, recalcular, costo_m2_estrato, String.reduceEq, reduceIte]
    norm_num
  exact ⟨Or.inl h1, h2,
    precio_base_coincide_con_precio_venta _ (Or.inl h1) h2⟩
